import Mathlib

/-!
Verification of the logr dispatch engine (vendor/github.com/mattermost/logr/logr.go)
against its natural-language specification.

The Go code is shallowly embedded as a sequential model:
  * a channel is a bounded FIFO buffer (`QueueState`): a non-blocking send
    succeeds exactly when the buffer has free space; a send on a nil channel
    can never succeed; a send on a closed channel panics;
  * a target is modelled by its observable behaviour: per-level enablement,
    whether its `Log` call panics on a given record, and its shutdown error;
  * observable actions (delivering a record to a target, reporting an error
    through `ReportError`, signalling a completion channel) are recorded as
    `Event`s, and completion channels are identified by natural numbers.

Definitions are translated from logr.go.  The level-cache implementations
(levelcache.go) and the defaults file (const.go) are not part of the sources;
those pieces are modelled from the spec and marked as such in doc comments.
-/

/-- LevelStatus from the source: the cached answer of IsLevelEnabled,
a pair of booleans (Enabled, Stacktrace). -/
structure LevelStatus where
  enabled : Bool
  stacktrace : Bool
deriving DecidableEq, Repr

/-- `var levelStatusDisabled = LevelStatus{}` — the zero value. -/
def levelStatusDisabled : LevelStatus := ⟨false, false⟩

/-- A log record is either a data record carrying a level, or a flush
sentinel (`rec.flush != nil`) carrying the identity of its completion
channel.  Channels are identified by naturals. -/
inductive LogRec where
  | data (level : Nat)
  | flushSentinel (ch : Nat)
deriving DecidableEq, Repr

/-- `rec.Level()`: flush sentinels carry the zero level. -/
def LogRec.level : LogRec → Nat
  | LogRec.data l => l
  | LogRec.flushSentinel _ => 0

/-- A Target, modelled by its observable behaviour through the capability
contract: `IsLevelEnabled` returns (enabled, wantsStacktrace); `logPanics`
says whether its `Log` call panics on a given record; `shutdownErr` is the
error (if any) its `Shutdown` returns. `name` is its printed identity. -/
structure Target where
  name : String
  isLevelEnabled : Nat → Bool × Bool
  logPanics : LogRec → Bool
  shutdownErr : Option String

/-- Observable actions of the engine. -/
inductive Event where
  | logged (target : String) (rec : LogRec)
  | reported (msg : String)
  | targetFlushed (target : String)
  | signaled (ch : Nat)
deriving DecidableEq, Repr

/-! ## The level scan of IsLevelEnabled (logr.go lines 198-212)

The loop over `logr.targets`:
```
for _, t := range logr.targets {
    e, s := t.IsLevelEnabled(lvl)
    if e {
        status.Enabled = true
        if s {
            status.Stacktrace = true
            break
        }
    }
}
```
`scanT` mirrors the loop exactly and additionally counts the number of
targets examined, so that the early `break` is observable. -/

/-- The target scan loop of IsLevelEnabled, instrumented with the number of
targets examined.  Mirrors the loop body statement for statement. -/
def scanT (lvl : Nat) (status : LevelStatus) : List Target → LevelStatus × Nat
  | [] => (status, 0)
  | t :: ts =>
    let es := t.isLevelEnabled lvl
    if es.1 then
      if es.2 then
        ({ enabled := true, stacktrace := true }, 1)
      else
        let r := scanT lvl { status with enabled := true } ts
        (r.1, r.2 + 1)
    else
      let r := scanT lvl status ts
      (r.1, r.2 + 1)

/-- The LevelStatus computed by the scan, starting from `LevelStatus{}`. -/
def scanStatus (targets : List Target) (lvl : Nat) : LevelStatus :=
  (scanT lvl ⟨false, false⟩ targets).1

/-- The number of targets examined by the scan (it stops early once both
flags are true). -/
def scanExamined (targets : List Target) (lvl : Nat) : Nat :=
  (scanT lvl ⟨false, false⟩ targets).2

/-! ## fanout (logr.go lines 478-500)

```
func (logr *Logr) fanout(rec *LogRec) {
    var target Target
    defer func() {
        if r := recover(); r != nil {
            logr.ReportError(fmt.Errorf("fanout failed for target %s, %v", target, r))
        }
    }()
    ...
    for _, target = range logr.targets {
        if enabled, _ := target.IsLevelEnabled(rec.Level()); enabled {
            target.Log(rec)
            logged = true
        }
    }
    ...
}
```
The deferred recover sits at function scope: a panic raised by
`target.Log` unwinds the whole loop, the error is reported tagged with the
current target, and fanout returns normally (so the consumer loop
continues), but targets later in the registry never see the record. -/

/-- One pass of the fanout loop.  On the first enabled target whose Log
panics, the recover fires: the error is reported tagged with that target
and the loop is abandoned. -/
def fanoutGo (rec : LogRec) : List Target → List Event
  | [] => []
  | t :: ts =>
    if (t.isLevelEnabled rec.level).1 then
      if t.logPanics rec then
        [Event.reported ("fanout failed for target " ++ t.name)]
      else
        Event.logged t.name rec :: fanoutGo rec ts
    else fanoutGo rec ts

/-- fanout: push a record to every registered target whose level check
accepts it, with the function-scope recover described above. -/
def fanout (targets : List Target) (rec : LogRec) : List Event :=
  fanoutGo rec targets

/-- The consumer loop (`start`, logr.go lines 435-452) processing a list of
data records: each record is prepped and fanned out; because fanout
recovers from target panics internally, processing always continues with
the next record. -/
def processRecords (targets : List Target) : List LogRec → List Event
  | [] => []
  | r :: rs => fanout targets r ++ processRecords targets rs

/-! ## flush (logr.go lines 503-530)

```
func (logr *Logr) flush(done chan<- struct{}) {
loop:
    for {
        var rec *LogRec
        select {
        case rec = <-logr.in:
            if rec.flush == nil {
                rec.prep()
                logr.fanout(rec)
            }
        default:
            break loop
        }
    }
    ...
    for _, target := range logr.targets {
        rec := newFlushLogRec(logger)
        target.Log(rec)
        <-rec.flush
    }
    done <- struct{}{}
}
```
The non-blocking drain consumes everything currently buffered: data
records are prepped and fanned out; a nested flush sentinel falls into the
`rec.flush != nil` case and is simply discarded — it is not fanned out and
its completion channel is never signalled.  Afterwards each target
receives a private flush marker (modelled by `Event.targetFlushed`), and
finally the caller's completion channel is signalled. -/

/-- The per-target flush markers followed by the completion signal. -/
def flushTargetsGo (done : Nat) : List Target → List Event
  | [] => [Event.signaled done]
  | t :: ts => Event.targetFlushed t.name :: flushTargetsGo done ts

/-- One step of the non-blocking drain: a data record is fanned out, a
nested flush sentinel is discarded. -/
def drainStep (targets : List Target) (r : LogRec) : List Event :=
  match r with
  | LogRec.data l => fanout targets (LogRec.data l)
  | LogRec.flushSentinel _ => []

/-- The consumer-side flush protocol, given the records currently buffered
in the intake queue, the registry, and the identity of the completion
channel carried by the sentinel being served. -/
def flushModel (queue : List LogRec) (targets : List Target) (done : Nat) :
    List Event :=
  queue.flatMap (drainStep targets) ++ flushTargetsGo done targets

/-! ## Level cache (contract from spec §4.1; levelcache.go is not in src)

Modelled from the spec: the level cache offers `get(levelID) ->
(status, found)`, `put(levelID, status) -> error`, `clear()`, `setup()`.
The spec specifies no failure condition for `put`, so `put` always
succeeds here; the cache is an association list from level IDs to
statuses.  `none` models the nil cache of an engine with no target ever
registered. -/

/-- Cache lookup: `get(levelID)`. -/
def lookupLevel (cache : List (Nat × LevelStatus)) (lvl : Nat) :
    Option LevelStatus :=
  match cache with
  | [] => none
  | e :: rest => if e.1 = lvl then some e.2 else lookupLevel rest lvl

/-- Cache store: `put(levelID, status)` (always succeeds, see above). -/
def putLevel (cache : List (Nat × LevelStatus)) (lvl : Nat)
    (st : LevelStatus) : List (Nat × LevelStatus) :=
  (lvl, st) :: cache

/-- `clear()` on a possibly-nil cache (resetLevelCache, logr.go 241-246):
a nil cache stays nil, an allocated cache is emptied. -/
def clearCache (c : Option (List (Nat × LevelStatus))) :
    Option (List (Nat × LevelStatus)) :=
  match c with
  | none => none
  | some _ => some []

/-! ## Queue capacity at first registration (AddTarget, logr.go 138-146) -/

/-- Modelled from the spec: `DefaultMaxQueueSize` lives in the defaults
file, which is not in src; the spec only says 0 selects "a documented
default".  Its concrete value is irrelevant to the claims, only that it is
positive. -/
def DefaultMaxQueueSize : Int := 1000

/-- The computation of `maxQueueSizeActual` inside `logr.once.Do`:
```
logr.maxQueueSizeActual = logr.MaxQueueSize
if logr.maxQueueSizeActual == 0 {
    logr.maxQueueSizeActual = DefaultMaxQueueSize
}
if logr.maxQueueSizeActual < 0 {
    logr.maxQueueSizeActual = 0
}
``` -/
def computeMaxQueueSizeActual (maxQueueSize : Int) : Int :=
  let a := maxQueueSize
  let b := if a = 0 then DefaultMaxQueueSize else a
  if b < 0 then 0 else b

/-! ## Buffer pool (BorrowBuffer / ReleaseBuffer, logr.go 391-405) -/

/-- A bytes.Buffer, reduced to its observable capacity and length. -/
structure Buffer where
  bcap : Nat
  blen : Nat
deriving DecidableEq, Repr

/-- `new(bytes.Buffer)` / `&bytes.Buffer{}`: a fresh empty buffer. -/
def Buffer.fresh : Buffer := ⟨0, 0⟩

/-- `buf.Reset()`: drops the content, keeps the capacity. -/
def Buffer.reset (b : Buffer) : Buffer := { b with blen := 0 }

/-! ## Engine state

The fields of `Logr` that the claims observe.  `queue` models the `in`
channel: `nilQ` is the nil channel of an engine whose once-initialization
has not run; `openQ recs` is the open channel with buffered records;
`closedQ` is the channel after `close(logr.in)` in Shutdown.  In the
sequential model a non-blocking send succeeds exactly when
`recs.length < maxQueueSizeActual`. -/

/-- The `in` channel. -/
inductive QueueState where
  | nilQ
  | openQ (recs : List LogRec)
  | closedQ
deriving DecidableEq, Repr

/-- The engine state: the fields of `Logr` observed by the claims. -/
structure LogrState where
  targets : List Target
  maxQueueSize : Int
  maxQueueSizeActual : Int
  queue : QueueState
  shutdownFlag : Bool
  lvlCache : Option (List (Nat × LevelStatus))
  onQueueFull : Option (LogRec → Int → Bool)
  disableBufferPool : Bool
  maxPooledBuffer : Int
  bufferPool : List Buffer

/-- A fresh `Logr{}`: zero values everywhere (nil channel, nil cache). -/
def LogrState.fresh (maxQueueSize : Int) : LogrState :=
  { targets := []
    maxQueueSize := maxQueueSize
    maxQueueSizeActual := 0
    queue := QueueState.nilQ
    shutdownFlag := false
    lvlCache := none
    onQueueFull := none
    disableBufferPool := false
    maxPooledBuffer := 0
    bufferPool := [] }

/-! ## IsLevelEnabled (logr.go 180-220)

```
func (logr *Logr) IsLevelEnabled(lvl Level) LevelStatus {
    if logr.lvlCache == nil {
        return levelStatusDisabled
    }
    status, ok := logr.lvlCache.get(lvl.ID)
    if ok {
        return status
    }
    ...
    if logr.shutdown {
        return levelStatusDisabled
    }
    status = LevelStatus{}
    ... scan loop ...
    if err := logr.lvlCache.put(lvl.ID, status); err != nil { ... }
    return status
}
```
Note the order: nil-cache check, then cache lookup, then the shutdown
check, then the scan, then the store. -/

/-- Result of an IsLevelEnabled call: the returned status, the state after
the call, any errors reported through ReportError, and how many targets
the registry scan examined (0 when no scan happened at all). -/
structure LevelCheckOut where
  status : LevelStatus
  state : LogrState
  reports : List String
  scanned : Nat

/-- IsLevelEnabled, mirroring the branch order of the source. -/
def isLevelEnabledOp (s : LogrState) (lvl : Nat) : LevelCheckOut :=
  match s.lvlCache with
  | none => ⟨levelStatusDisabled, s, [], 0⟩
  | some cache =>
    match lookupLevel cache lvl with
    | some st => ⟨st, s, [], 0⟩
    | none =>
      if s.shutdownFlag then ⟨levelStatusDisabled, s, [], 0⟩
      else
        let st := scanStatus s.targets lvl
        ⟨st, { s with lvlCache := some (putLevel cache lvl st) }, [],
          scanExamined s.targets lvl⟩

/-! ## AddTarget (logr.go 119-166) -/

/-- AddTarget: refused after shutdown; otherwise appends the target,
runs the once-initialization on the first registration (fixing the queue
capacity, allocating the queue and the cache), and resets the level
cache.  Metrics wiring is omitted (no metrics collector is modelled). -/
def addTargetOp (s : LogrState) (t : Target) : LogrState × Option String :=
  if s.shutdownFlag then (s, some "logr shut down")
  else
    let s1 := { s with targets := s.targets ++ [t] }
    let s2 :=
      match s1.queue with
      | QueueState.nilQ =>
        { s1 with
          maxQueueSizeActual := computeMaxQueueSizeActual s1.maxQueueSize
          queue := QueueState.openQ []
          lvlCache := some [] }
      | _ => s1
    ({ s2 with lvlCache := clearCache s2.lvlCache }, none)

/-! ## enqueue (logr.go 251-268)

```
func (logr *Logr) enqueue(rec *LogRec) {
    if logr.in == nil {
        logr.ReportError(fmt.Errorf("AddTarget or Configure must be called before enqueue"))
    }
    select {
    case logr.in <- rec:
    default:
        if logr.OnQueueFull != nil && logr.OnQueueFull(rec, logr.maxQueueSizeActual) {
            return // drop the record
        }
        select {
        case <-time.After(logr.enqueueTimeout()):
            logr.ReportError(fmt.Errorf("enqueue timed out for log rec [%v]", rec))
        case logr.in <- rec: // block until success or timeout
        }
    }
}
```
There is no `return` after the nil-queue report: the call falls through to
the select.  A send on the nil channel is never ready, so the default case
fires; if OnQueueFull does not drop, the blocking select can only be won
by the timeout (a nil channel never becomes ready), so the call blocks for
the enqueue timeout and then reports a second error.  A send on a closed
channel panics. -/

/-- How an enqueue call ended. `blockedFull` marks the blocking send on an
open full queue, whose outcome (success or timeout) depends on the
concurrent consumer and is left open in the sequential model. -/
inductive EnqueueOutcome where
  | placed
  | dropped
  | timedOut
  | blockedFull
  | panickedClosed
deriving DecidableEq, Repr

/-- Result of an enqueue call. -/
structure EnqueueOut where
  state : LogrState
  reports : List String
  outcome : EnqueueOutcome

/-- `OnQueueFull != nil && OnQueueFull(rec, maxQueueSizeActual)`. -/
def consultQueueFull (s : LogrState) (rec : LogRec) : Bool :=
  match s.onQueueFull with
  | none => false
  | some f => f rec s.maxQueueSizeActual

/-- enqueue, mirroring the source. -/
def enqueueOp (s : LogrState) (rec : LogRec) : EnqueueOut :=
  match s.queue with
  | QueueState.nilQ =>
    let reports := ["AddTarget or Configure must be called before enqueue"]
    if consultQueueFull s rec then ⟨s, reports, EnqueueOutcome.dropped⟩
    else
      ⟨s, reports ++ ["enqueue timed out for log rec"],
        EnqueueOutcome.timedOut⟩
  | QueueState.closedQ => ⟨s, [], EnqueueOutcome.panickedClosed⟩
  | QueueState.openQ recs =>
    if (recs.length : Int) < s.maxQueueSizeActual then
      ⟨{ s with queue := QueueState.openQ (recs ++ [rec]) }, [],
        EnqueueOutcome.placed⟩
    else if consultQueueFull s rec then ⟨s, [], EnqueueOutcome.dropped⟩
    else ⟨s, [], EnqueueOutcome.blockedFull⟩

/-! ## Shutdown (logr.go 334-374) -/

/-- Result of a Shutdown call: the state after the call, whether the
distinguished "Shutdown called again after shut down" error was returned,
the targets whose Shutdown contract was invoked (in order), and the
collected target shutdown errors. -/
structure ShutdownOut where
  state : LogrState
  alreadyShutDown : Bool
  targetShutdownCalls : List String
  errs : List String

/-- Shutdown: a second call returns the distinguished error at once and
touches nothing.  A first call sets the flag, clears the level cache,
closes the intake queue if it was ever created (the consumer drains it and
exits), then invokes every target's Shutdown, collecting all errors. -/
def shutdownOp (s : LogrState) : ShutdownOut :=
  if s.shutdownFlag then ⟨s, true, [], []⟩
  else
    let s1 := { s with shutdownFlag := true, lvlCache := clearCache s.lvlCache }
    let s2 :=
      match s1.queue with
      | QueueState.nilQ => s1
      | _ => { s1 with queue := QueueState.closedQ }
    ⟨s2, false, s.targets.map Target.name,
      s.targets.filterMap Target.shutdownErr⟩

/-! ## Buffer pool (logr.go 391-405) -/

/-- BorrowBuffer: with pooling disabled every borrow is a fresh buffer;
otherwise `bufferPool.Get()` hands out a pooled buffer if one is
available, or a fresh one from the pool's New function. -/
def borrowBuffer (s : LogrState) : Buffer × LogrState :=
  if s.disableBufferPool then (Buffer.fresh, s)
  else
    match s.bufferPool with
    | [] => (Buffer.fresh, s)
    | b :: rest => (b, { s with bufferPool := rest })

/-- ReleaseBuffer:
```
if !logr.DisableBufferPool && buf.Cap() < logr.MaxPooledBuffer {
    buf.Reset()
    logr.bufferPool.Put(buf)
}
```
Returns the new state and whether the buffer was put back in the pool. -/
def releaseBuffer (s : LogrState) (buf : Buffer) : LogrState × Bool :=
  if !s.disableBufferPool && (buf.bcap : Int) < s.maxPooledBuffer then
    ({ s with bufferPool := buf.reset :: s.bufferPool }, true)
  else (s, false)

/-! ## Remaining operations and the step relation

The public Flush (logr.go 306-326) enqueues a flush sentinel when at least
one target is registered; a consumer step serves one buffered record.
These only touch the queue, never the shutdown flag or the level cache.
`Op` closes the reachable-state relation used by the lifecycle claims. -/

/-- Public Flush: no targets means an immediate return; otherwise a flush
sentinel with a fresh completion channel goes through enqueue. -/
def flushPublicOp (s : LogrState) (ch : Nat) : LogrState :=
  if s.targets.isEmpty then s
  else (enqueueOp s (LogRec.flushSentinel ch)).state

/-- One consumer step: serve the head of the open queue.  A data record is
fanned out; a flush sentinel triggers the flush protocol, which drains the
rest of the buffer.  Only the queue changes. -/
def consumerStepOp (s : LogrState) : LogrState :=
  match s.queue with
  | QueueState.openQ (r :: rest) =>
    match r with
    | LogRec.data _ => { s with queue := QueueState.openQ rest }
    | LogRec.flushSentinel _ => { s with queue := QueueState.openQ [] }
  | _ => s

/-- The engine operations, for quantifying over reachable states. -/
inductive Op where
  | addTarget (t : Target)
  | isLevelEnabled (lvl : Nat)
  | resetLevelCache
  | enqueue (rec : LogRec)
  | shutdown
  | flushPublic (ch : Nat)
  | consumerStep
  | borrow
  | release (buf : Buffer)

/-- Apply one operation to the state (outputs discarded). -/
def applyOp (s : LogrState) : Op → LogrState
  | Op.addTarget t => (addTargetOp s t).1
  | Op.isLevelEnabled lvl => (isLevelEnabledOp s lvl).state
  | Op.resetLevelCache => { s with lvlCache := clearCache s.lvlCache }
  | Op.enqueue rec => (enqueueOp s rec).state
  | Op.shutdown => (shutdownOp s).state
  | Op.flushPublic ch => flushPublicOp s ch
  | Op.consumerStep => consumerStepOp s
  | Op.borrow => (borrowBuffer s).2
  | Op.release buf => (releaseBuffer s buf).1

/-- Apply a sequence of operations. -/
def applyOps (s : LogrState) : List Op → LogrState
  | [] => s
  | op :: ops => applyOps (applyOp s op) ops

/-! ## Concrete fixtures used by witnesses and counterexamples -/

/-- A well-behaved target that accepts every level without stacktraces. -/
def tPlain : Target :=
  ⟨"plain", fun _ => (true, false), fun _ => false, none⟩

/-- A target that accepts every level and wants stacktraces. -/
def tTrace : Target :=
  ⟨"trace", fun _ => (true, true), fun _ => false, none⟩

/-- A target whose Log call panics on every record. -/
def tBoom : Target :=
  ⟨"boom", fun _ => (true, false), fun _ => true, none⟩

/-- A well-behaved target registered after the panicking one. -/
def tAfter : Target :=
  ⟨"after", fun _ => (true, false), fun _ => false, none⟩

/-- An engine that was already shut down. -/
def sDown : LogrState :=
  { LogrState.fresh 0 with shutdownFlag := true }

/-- An initialized engine whose one-slot queue is full and whose overflow
callback always says drop. -/
def sFull : LogrState :=
  { LogrState.fresh 0 with
      targets := [tPlain]
      maxQueueSizeActual := 1
      queue := QueueState.openQ [LogRec.data 0]
      lvlCache := some []
      onQueueFull := some (fun _ _ => true) }

/-- An initialized engine with an empty level cache and two targets. -/
def sMiss : LogrState :=
  { LogrState.fresh 0 with
      targets := [tPlain, tTrace]
      maxQueueSizeActual := 5
      queue := QueueState.openQ []
      lvlCache := some [] }

/-- An engine with buffer pooling enabled and a 10-byte pooling ceiling. -/
def sPool : LogrState :=
  { LogrState.fresh 0 with maxPooledBuffer := 10 }

/-! ## Shared helper lemmas -/

/-- With a nil level cache, IsLevelEnabled returns disabled immediately:
no scan, no report, no state change. -/
theorem isLevelEnabledOp_none (s : LogrState) (lvl : Nat)
    (h : s.lvlCache = none) :
    isLevelEnabledOp s lvl = ⟨levelStatusDisabled, s, [], 0⟩ := by
  unfold isLevelEnabledOp
  rw [h]

/-- With the shutdown flag set and a nil or empty level cache,
IsLevelEnabled returns disabled immediately: no scan, no report, no state
change (in particular nothing is stored in the cache). -/
theorem isLevelEnabledOp_quiescent (s : LogrState) (lvl : Nat)
    (hf : s.shutdownFlag = true)
    (hc : s.lvlCache = none ∨ s.lvlCache = some []) :
    isLevelEnabledOp s lvl = ⟨levelStatusDisabled, s, [], 0⟩ := by
  rcases hc with hc | hc
  · exact isLevelEnabledOp_none s lvl hc
  · unfold isLevelEnabledOp
    rw [hc]
    simp [lookupLevel, hf]

/-- A Shutdown call on an engine whose flag is already set returns the
distinguished error without touching anything. -/
theorem shutdownOp_already (s : LogrState) (h : s.shutdownFlag = true) :
    shutdownOp s = ⟨s, true, [], []⟩ := by
  unfold shutdownOp
  rw [h]
  simp

/-! ## Claim theorems -/

/-- Claim C10: for every level, calling IsLevelEnabled before any target
has ever been registered (level cache still nil) returns the disabled
status without error, without scanning any target, and without mutating
any state. -/
theorem isLevelEnabled_nil_cache_disabled (s : LogrState) (lvl : Nat)
    (h : s.lvlCache = none) :
    isLevelEnabledOp s lvl = ⟨levelStatusDisabled, s, [], 0⟩ :=
  isLevelEnabledOp_none s lvl h

/-- Witness for C10 at a fresh engine and level 3. -/
theorem isLevelEnabled_nil_cache_disabled_witness :
    (LogrState.fresh 0).lvlCache = none
    ∧ isLevelEnabledOp (LogrState.fresh 0) 3
        = ⟨levelStatusDisabled, LogrState.fresh 0, [], 0⟩ :=
  ⟨rfl, isLevelEnabled_nil_cache_disabled (LogrState.fresh 0) 3 rfl⟩

/-- Claim C4: a second Shutdown call (shutdown flag already set) returns
the distinguished "already shut down" error, invokes no target's
Shutdown, and leaves the whole engine state unchanged. -/
theorem shutdown_second_call_rejected (s : LogrState)
    (h : s.shutdownFlag = true) :
    shutdownOp s = ⟨s, true, [], []⟩ :=
  shutdownOp_already s h

/-- Witness for C4 at a concrete shut-down engine. -/
theorem shutdown_second_call_rejected_witness :
    sDown.shutdownFlag = true ∧ shutdownOp sDown = ⟨sDown, true, [], []⟩ :=
  ⟨rfl, shutdown_second_call_rejected sDown rfl⟩

/-- Claim C7: the intake queue capacity fixed at first target registration
is the documented default when MaxQueueSize is 0, zero when MaxQueueSize
is negative, and MaxQueueSize itself otherwise. -/
theorem addTarget_fixes_queue_capacity (s : LogrState) (t : Target)
    (hq : s.queue = QueueState.nilQ) (hsd : s.shutdownFlag = false) :
    ((addTargetOp s t).1).maxQueueSizeActual
      = (if s.maxQueueSize = 0 then DefaultMaxQueueSize
         else if s.maxQueueSize < 0 then 0 else s.maxQueueSize) := by
  have h1 : ((addTargetOp s t).1).maxQueueSizeActual
      = computeMaxQueueSizeActual s.maxQueueSize := by
    simp [addTargetOp, hsd, hq]
  rw [h1]
  simp only [computeMaxQueueSizeActual, DefaultMaxQueueSize]
  split_ifs <;> omega

/-- Witness for C7 at a fresh engine configured with MaxQueueSize = 0. -/
theorem addTarget_fixes_queue_capacity_witness :
    (LogrState.fresh 0).queue = QueueState.nilQ
    ∧ (LogrState.fresh 0).shutdownFlag = false
    ∧ ((addTargetOp (LogrState.fresh 0) tPlain).1).maxQueueSizeActual
        = (if (LogrState.fresh 0).maxQueueSize = 0 then DefaultMaxQueueSize
           else if (LogrState.fresh 0).maxQueueSize < 0 then 0
           else (LogrState.fresh 0).maxQueueSize) :=
  ⟨rfl, rfl, addTarget_fixes_queue_capacity (LogrState.fresh 0) tPlain rfl rfl⟩

/-- Claim C8: ReleaseBuffer returns the buffer to the pool iff pooling is
enabled and its capacity is strictly below the configured ceiling; and
with pooling disabled, BorrowBuffer returns a fresh empty buffer. -/
theorem bufferPool_release_iff_and_borrow_fresh (s : LogrState)
    (buf : Buffer) :
    ((releaseBuffer s buf).2 = true
      ↔ (s.disableBufferPool = false ∧ (buf.bcap : Int) < s.maxPooledBuffer))
    ∧ (s.disableBufferPool = true → (borrowBuffer s).1 = Buffer.fresh) := by
  constructor
  · unfold releaseBuffer
    split_ifs with h <;> simp_all
  · intro hd
    unfold borrowBuffer
    rw [hd]
    simp

/-- Witness for C8 at a pooling-enabled engine and a small buffer. -/
theorem bufferPool_release_iff_and_borrow_fresh_witness :
    ((releaseBuffer sPool ⟨4, 2⟩).2 = true
      ↔ (sPool.disableBufferPool = false
          ∧ ((⟨4, 2⟩ : Buffer).bcap : Int) < sPool.maxPooledBuffer))
    ∧ (sPool.disableBufferPool = true → (borrowBuffer sPool).1 = Buffer.fresh) :=
  bufferPool_release_iff_and_borrow_fresh sPool ⟨4, 2⟩

/-- Claim C6: when the intake queue is full and the overflow callback says
drop, enqueue returns at once with the record discarded: the state is
unchanged (so the record is never delivered to any target), nothing is
reported, and the outcome is the non-blocking drop return. -/
theorem enqueue_full_drop (s : LogrState) (rec : LogRec)
    (recs : List LogRec) (hq : s.queue = QueueState.openQ recs)
    (hfull : ¬ ((recs.length : Int) < s.maxQueueSizeActual))
    (hcb : consultQueueFull s rec = true) :
    enqueueOp s rec = ⟨s, [], EnqueueOutcome.dropped⟩ := by
  unfold enqueueOp
  rw [hq]
  simp [hfull, hcb]

/-- Witness for C6 at a full one-slot queue with an always-drop callback. -/
theorem enqueue_full_drop_witness :
    sFull.queue = QueueState.openQ [LogRec.data 0]
    ∧ ¬ ((([LogRec.data 0] : List LogRec).length : Int) < sFull.maxQueueSizeActual)
    ∧ consultQueueFull sFull (LogRec.data 7) = true
    ∧ enqueueOp sFull (LogRec.data 7) = ⟨sFull, [], EnqueueOutcome.dropped⟩ :=
  ⟨rfl, by decide, rfl,
    enqueue_full_drop sFull (LogRec.data 7) [LogRec.data 0] rfl (by decide) rfl⟩

/-- Claim C2 (code evaluation at the failing input): on an engine where no
target was ever registered (nil intake queue) and with no overflow
callback, enqueue reports the misuse error but does NOT return: it falls
through to the blocking select on the nil channel, blocks for the enqueue
timeout, and reports a second timeout error.  The record is never placed
anywhere. -/
theorem enqueue_nil_queue_falls_through :
    enqueueOp (LogrState.fresh 0) (LogRec.data 1)
      = ⟨LogrState.fresh 0,
         ["AddTarget or Configure must be called before enqueue",
          "enqueue timed out for log rec"],
         EnqueueOutcome.timedOut⟩ := by
  rfl

/-! ## The scan characterization (claim C5) -/

/-- The enabled flag computed by the scan loop: the disjunction of the
start flag and per-target enablement. -/
theorem scanT_fst_enabled (lvl : Nat) (ts : List Target) (st : LevelStatus) :
    ((scanT lvl st ts).1).enabled
      = (st.enabled || ts.any (fun t => (t.isLevelEnabled lvl).1)) := by
  induction ts generalizing st with
  | nil => simp [scanT]
  | cons t ts ih =>
    by_cases h1 : (t.isLevelEnabled lvl).1
    · by_cases h2 : (t.isLevelEnabled lvl).2
      · simp [scanT, h1, h2]
      · simp [scanT, h1, h2, ih]
    · simp [scanT, h1, ih]

/-- The stacktrace flag computed by the scan loop: the disjunction of the
start flag and "some enabled target wants a trace". -/
theorem scanT_fst_stacktrace (lvl : Nat) (ts : List Target)
    (st : LevelStatus) :
    ((scanT lvl st ts).1).stacktrace
      = (st.stacktrace
          || ts.any (fun t =>
               (t.isLevelEnabled lvl).1 && (t.isLevelEnabled lvl).2)) := by
  induction ts generalizing st with
  | nil => simp [scanT]
  | cons t ts ih =>
    by_cases h1 : (t.isLevelEnabled lvl).1
    · by_cases h2 : (t.isLevelEnabled lvl).2
      · simp [scanT, h1, h2]
      · simp [scanT, h1, h2, ih]
    · simp [scanT, h1, ih]

/-- The scan examines targets only up to (and including) the first one
that is enabled and wants a trace — at that point both flags are true and
the loop breaks. -/
theorem scanT_snd_count (lvl : Nat) (ts : List Target) (st : LevelStatus) :
    (scanT lvl st ts).2
      = min ts.length
          ((ts.takeWhile (fun t =>
              !((t.isLevelEnabled lvl).1 && (t.isLevelEnabled lvl).2))).length
            + 1) := by
  induction ts generalizing st with
  | nil => simp [scanT]
  | cons t ts ih =>
    by_cases h1 : (t.isLevelEnabled lvl).1
    · by_cases h2 : (t.isLevelEnabled lvl).2
      · simp [scanT, h1, h2, List.takeWhile_cons]
      · simp [scanT, h1, h2, List.takeWhile_cons, ih]
        omega
    · simp [scanT, h1, List.takeWhile_cons, ih]
      omega

/-- Claim C5: on a cache miss before shutdown, the status IsLevelEnabled
computes satisfies: enabled iff at least one target reports the level
enabled; stacktrace iff at least one target reports it enabled and wants a
trace; and the registry scan stops as soon as both flags are true (it
examines targets only up to and including the first enabled-with-trace
one). -/
theorem isLevelEnabled_miss_scan (s : LogrState) (lvl : Nat)
    (cache : List (Nat × LevelStatus)) (hc : s.lvlCache = some cache)
    (hmiss : lookupLevel cache lvl = none) (hsd : s.shutdownFlag = false) :
    ((isLevelEnabledOp s lvl).status.enabled
        = s.targets.any (fun t => (t.isLevelEnabled lvl).1))
    ∧ ((isLevelEnabledOp s lvl).status.stacktrace
        = s.targets.any (fun t =>
            (t.isLevelEnabled lvl).1 && (t.isLevelEnabled lvl).2))
    ∧ ((isLevelEnabledOp s lvl).scanned
        = min s.targets.length
            ((s.targets.takeWhile (fun t =>
                !((t.isLevelEnabled lvl).1 && (t.isLevelEnabled lvl).2))).length
              + 1)) := by
  have hop : isLevelEnabledOp s lvl
      = ⟨scanStatus s.targets lvl,
         { s with
             lvlCache := some (putLevel cache lvl (scanStatus s.targets lvl)) },
         [], scanExamined s.targets lvl⟩ := by
    simp [isLevelEnabledOp, hc, hmiss, hsd]
  rw [hop]
  refine ⟨?_, ?_, ?_⟩
  · simpa [scanStatus] using scanT_fst_enabled lvl s.targets ⟨false, false⟩
  · simpa [scanStatus] using scanT_fst_stacktrace lvl s.targets ⟨false, false⟩
  · simpa [scanExamined] using scanT_snd_count lvl s.targets ⟨false, false⟩

/-- Witness for C5 at a two-target engine (one plain, one with traces)
with an empty cache, at level 2. -/
theorem isLevelEnabled_miss_scan_witness :
    ((isLevelEnabledOp sMiss 2).status.enabled
        = sMiss.targets.any (fun t => (t.isLevelEnabled 2).1))
    ∧ ((isLevelEnabledOp sMiss 2).status.stacktrace
        = sMiss.targets.any (fun t =>
            (t.isLevelEnabled 2).1 && (t.isLevelEnabled 2).2))
    ∧ ((isLevelEnabledOp sMiss 2).scanned
        = min sMiss.targets.length
            ((sMiss.targets.takeWhile (fun t =>
                !((t.isLevelEnabled 2).1 && (t.isLevelEnabled 2).2))).length
              + 1)) :=
  isLevelEnabled_miss_scan sMiss 2 [] rfl rfl rfl

/-! ## Panic isolation in fanout (claim C1) -/

/-- Claim C1 counterexample: register the panicking target `tBoom` before
the well-behaved `tAfter` and fan out one record.  Both targets have the
level enabled, `tBoom`'s Log panics, the panic is caught and reported
tagged with `tBoom` — but `tAfter`, which occurs after it in registry
order, does NOT receive the record, refuting the claim as stated. -/
theorem fanout_panic_counterexample :
    (tBoom.isLevelEnabled (LogRec.data 1).level).1 = true
    ∧ tBoom.logPanics (LogRec.data 1) = true
    ∧ (tAfter.isLevelEnabled (LogRec.data 1).level).1 = true
    ∧ Event.reported ("fanout failed for target " ++ tBoom.name)
        ∈ fanout [tBoom, tAfter] (LogRec.data 1)
    ∧ Event.logged tAfter.name (LogRec.data 1)
        ∉ fanout [tBoom, tAfter] (LogRec.data 1) := by
  decide

/-- Helper for C1: if no enabled target in `pre` panics, the fanout loop
reaches `t`; `t`'s panic unwinds it, leaving the deliveries to `pre`
followed by the tagged report, and nothing for the targets after `t`. -/
theorem fanoutGo_panic_append (rec : LogRec) (pre post : List Target)
    (t : Target) (he : (t.isLevelEnabled rec.level).1 = true)
    (hp : t.logPanics rec = true)
    (hpre : ∀ u ∈ pre, (u.isLevelEnabled rec.level).1 = true →
      u.logPanics rec = false) :
    fanoutGo rec (pre ++ t :: post)
      = fanoutGo rec pre
        ++ [Event.reported ("fanout failed for target " ++ t.name)] := by
  induction pre with
  | nil => simp [fanoutGo, he, hp]
  | cons u pre ih =>
    have hrest : ∀ v ∈ pre, (v.isLevelEnabled rec.level).1 = true →
        v.logPanics rec = false :=
      fun v hv => hpre v (by simp [hv])
    by_cases h1 : (u.isLevelEnabled rec.level).1
    · have h2 : u.logPanics rec = false := hpre u (by simp) h1
      simp only [List.cons_append, fanoutGo, h1, if_true, h2]
      simp [ih hrest]
    · simp only [List.cons_append, fanoutGo, h1]
      simp [h1, ih hrest]

/-- Claim C1 (amended): if a target's Log panics during fan-out (and no
enabled target before it panicked on this record), the panic is caught and
reported through the error sink tagged with that target's identity, and
the consumer loop goes on to process subsequent records — but fan-out of
THIS record stops: every delivery of it happened in the prefix before the
panicking target, and targets after it do not receive it. -/
theorem fanout_panic_caught_stops_record (pre post : List Target)
    (t : Target) (rec : LogRec) (rest : List LogRec)
    (he : (t.isLevelEnabled rec.level).1 = true)
    (hp : t.logPanics rec = true)
    (hpre : ∀ u ∈ pre, (u.isLevelEnabled rec.level).1 = true →
      u.logPanics rec = false) :
    (fanout (pre ++ t :: post) rec
      = fanoutGo rec pre
        ++ [Event.reported ("fanout failed for target " ++ t.name)])
    ∧ (∀ name, Event.logged name rec ∈ fanout (pre ++ t :: post) rec →
        Event.logged name rec ∈ fanoutGo rec pre)
    ∧ (processRecords (pre ++ t :: post) (rec :: rest)
        = fanout (pre ++ t :: post) rec
          ++ processRecords (pre ++ t :: post) rest) := by
  have hmain := fanoutGo_panic_append rec pre post t he hp hpre
  refine ⟨hmain, ?_, rfl⟩
  intro name hmem
  rw [show fanout (pre ++ t :: post) rec = fanoutGo rec (pre ++ t :: post)
        from rfl, hmain] at hmem
  rcases List.mem_append.mp hmem with h | h
  · exact h
  · simp at h

/-- Witness for the amended C1: `tBoom` panics first in a two-target
registry; the report is emitted, nothing reaches `tAfter`, and the next
record is still processed. -/
theorem fanout_panic_caught_stops_record_witness :
    ((tBoom.isLevelEnabled (LogRec.data 1).level).1 = true)
    ∧ (tBoom.logPanics (LogRec.data 1) = true)
    ∧ ((fanout ([] ++ tBoom :: [tAfter]) (LogRec.data 1)
          = fanoutGo (LogRec.data 1) []
            ++ [Event.reported ("fanout failed for target " ++ tBoom.name)])
        ∧ (∀ name,
            Event.logged name (LogRec.data 1)
                ∈ fanout ([] ++ tBoom :: [tAfter]) (LogRec.data 1) →
            Event.logged name (LogRec.data 1) ∈ fanoutGo (LogRec.data 1) [])
        ∧ (processRecords ([] ++ tBoom :: [tAfter])
              (LogRec.data 1 :: [LogRec.data 2])
            = fanout ([] ++ tBoom :: [tAfter]) (LogRec.data 1)
              ++ processRecords ([] ++ tBoom :: [tAfter]) [LogRec.data 2])) :=
  ⟨rfl, rfl,
    fanout_panic_caught_stops_record [] [tAfter] tBoom (LogRec.data 1)
      [LogRec.data 2] rfl rfl (by simp)⟩

/-! ## Nested flush sentinels (claim C9) -/

/-- Every event a fanout emits is a delivery of that very record or an
error report. -/
theorem fanoutGo_event_shape (rec : LogRec) (targets : List Target)
    (e : Event) (he : e ∈ fanoutGo rec targets) :
    (∃ n, e = Event.logged n rec) ∨ (∃ m, e = Event.reported m) := by
  induction targets with
  | nil => cases he
  | cons t ts ih =>
    by_cases h1 : (t.isLevelEnabled rec.level).1
    · by_cases h2 : t.logPanics rec
      · simp [fanoutGo, h1, h2] at he
        exact Or.inr ⟨_, he⟩
      · simp only [fanoutGo, h1, if_true, h2, if_false, Bool.false_eq_true,
          List.mem_cons] at he
        rcases he with h | h
        · exact Or.inl ⟨t.name, h⟩
        · exact ih h
    · simp [fanoutGo, h1] at he
      exact ih he

/-- Every event of the per-target flush phase is a target flush marker or
the final completion signal on the caller's channel. -/
theorem flushTargetsGo_event_shape (done : Nat) (targets : List Target)
    (e : Event) (he : e ∈ flushTargetsGo done targets) :
    e = Event.signaled done ∨ (∃ n, e = Event.targetFlushed n) := by
  induction targets with
  | nil =>
    simp [flushTargetsGo] at he
    exact Or.inl he
  | cons t ts ih =>
    simp only [flushTargetsGo, List.mem_cons] at he
    rcases he with h | h
    · exact Or.inr ⟨t.name, h⟩
    · exact ih h

/-- Claim C9: a flush sentinel sitting in the intake queue while the
consumer serves another flush is discarded by the non-blocking drain: its
completion channel is never signalled (so its waiter can only return via
its deadline) and it is never forwarded to any target. -/
theorem flush_discards_nested_sentinel (queue : List LogRec)
    (targets : List Target) (done ch : Nat)
    (_hmem : LogRec.flushSentinel ch ∈ queue) (hne : ch ≠ done) :
    Event.signaled ch ∉ flushModel queue targets done
    ∧ ∀ name, Event.logged name (LogRec.flushSentinel ch)
        ∉ flushModel queue targets done := by
  constructor
  · intro h
    rcases List.mem_append.mp h with h | h
    · rcases List.mem_flatMap.mp h with ⟨r, hr, hre⟩
      cases r with
      | data l =>
        simp only [drainStep, fanout] at hre
        rcases fanoutGo_event_shape _ _ _ hre with ⟨n, hn⟩ | ⟨m, hm⟩ <;>
          simp_all
      | flushSentinel c => cases hre
    · rcases flushTargetsGo_event_shape _ _ _ h with h | ⟨n, hn⟩
      · injection h with h
        exact hne h
      · cases hn
  · intro name h
    rcases List.mem_append.mp h with h | h
    · rcases List.mem_flatMap.mp h with ⟨r, hr, hre⟩
      cases r with
      | data l =>
        simp only [drainStep, fanout] at hre
        rcases fanoutGo_event_shape _ _ _ hre with ⟨n, hn⟩ | ⟨m, hm⟩ <;>
          simp_all
      | flushSentinel c => cases hre
    · rcases flushTargetsGo_event_shape _ _ _ h with h | ⟨n, hn⟩ <;>
        simp_all

/-- Witness for C9: a queue holding a data record and a nested sentinel on
channel 7, one target, outer completion channel 9. -/
theorem flush_discards_nested_sentinel_witness :
    LogRec.flushSentinel 7 ∈ [LogRec.data 1, LogRec.flushSentinel 7]
    ∧ (7 : Nat) ≠ 9
    ∧ (Event.signaled 7
        ∉ flushModel [LogRec.data 1, LogRec.flushSentinel 7] [tPlain] 9
      ∧ ∀ name, Event.logged name (LogRec.flushSentinel 7)
          ∉ flushModel [LogRec.data 1, LogRec.flushSentinel 7] [tPlain] 9) :=
  ⟨by decide, by decide,
    flush_discards_nested_sentinel [LogRec.data 1, LogRec.flushSentinel 7]
      [tPlain] 9 7 (by decide) (by decide)⟩

/-! ## Lifecycle invariant after shutdown (claim C3) -/

/-- The quiescent shape of every state reachable after a first Shutdown:
the flag is set and the level cache is nil or empty. -/
def shutQuiescent (s : LogrState) : Prop :=
  s.shutdownFlag = true ∧ (s.lvlCache = none ∨ s.lvlCache = some [])

/-- enqueue only ever touches the queue: flag and cache are preserved. -/
theorem enqueueOp_preserves_flag_cache (s : LogrState) (rec : LogRec) :
    (enqueueOp s rec).state.shutdownFlag = s.shutdownFlag
    ∧ (enqueueOp s rec).state.lvlCache = s.lvlCache := by
  cases hq : s.queue with
  | nilQ =>
    simp only [enqueueOp, hq]
    split_ifs <;> simp
  | openQ recs =>
    simp only [enqueueOp, hq]
    split_ifs <;> simp
  | closedQ =>
    simp [enqueueOp, hq]

/-- Every engine operation preserves the post-shutdown quiescent shape:
registration and shutdown are refused, a level query misses the empty
cache and hits the shutdown guard, cache resets keep it empty, and the
remaining operations never touch flag or cache. -/
theorem shutQuiescent_applyOp (s : LogrState) (op : Op)
    (h : shutQuiescent s) : shutQuiescent (applyOp s op) := by
  obtain ⟨hf, hc⟩ := h
  cases op with
  | addTarget t =>
    have hs : applyOp s (Op.addTarget t) = s := by
      simp [applyOp, addTargetOp, hf]
    rw [hs]; exact ⟨hf, hc⟩
  | isLevelEnabled lvl =>
    have hs : applyOp s (Op.isLevelEnabled lvl) = s := by
      simp [applyOp, isLevelEnabledOp_quiescent s lvl hf hc]
    rw [hs]; exact ⟨hf, hc⟩
  | resetLevelCache =>
    refine ⟨hf, ?_⟩
    rcases hc with hc | hc <;> simp [applyOp, clearCache, hc]
  | enqueue rec =>
    have hp := enqueueOp_preserves_flag_cache s rec
    exact ⟨hp.1.trans hf, hp.2 ▸ hc⟩
  | shutdown =>
    have hs : applyOp s Op.shutdown = s := by
      simp [applyOp, shutdownOp_already s hf]
    rw [hs]; exact ⟨hf, hc⟩
  | flushPublic ch =>
    simp only [applyOp, flushPublicOp]
    split_ifs with hts
    · exact ⟨hf, hc⟩
    · have hp := enqueueOp_preserves_flag_cache s (LogRec.flushSentinel ch)
      exact ⟨hp.1.trans hf, hp.2 ▸ hc⟩
  | consumerStep =>
    simp only [applyOp, consumerStepOp]
    cases hq : s.queue with
    | nilQ => exact ⟨hf, hc⟩
    | closedQ => exact ⟨hf, hc⟩
    | openQ recs =>
      cases recs with
      | nil => exact ⟨hf, hc⟩
      | cons r rest => cases r <;> exact ⟨hf, hc⟩
  | borrow =>
    simp only [applyOp, borrowBuffer]
    split_ifs with hd
    · exact ⟨hf, hc⟩
    · cases s.bufferPool <;> exact ⟨hf, hc⟩
  | release buf =>
    simp only [applyOp, releaseBuffer]
    split_ifs with hd <;> exact ⟨hf, hc⟩

/-- The quiescent shape is preserved along any operation sequence. -/
theorem shutQuiescent_applyOps (s : LogrState) (ops : List Op)
    (h : shutQuiescent s) : shutQuiescent (applyOps s ops) := by
  induction ops generalizing s with
  | nil => exact h
  | cons op ops ih => exact ih _ (shutQuiescent_applyOp s op h)

/-- A first Shutdown call leaves the engine quiescent: the flag is set and
the level cache was cleared (or was never allocated). -/
theorem shutdownOp_quiescent (s : LogrState) (h : s.shutdownFlag = false) :
    shutQuiescent (shutdownOp s).state := by
  unfold shutdownOp
  rw [h]
  simp only [Bool.false_eq_true, if_false]
  cases hq : s.queue <;>
    rcases hcc : s.lvlCache with _ | c <;>
      simp [shutQuiescent, clearCache, hcc]

/-- Claim C3: for every state reachable after a first Shutdown call, every
subsequent IsLevelEnabled call, at every level, returns the disabled
status, stores nothing in the level cache (the whole state is unchanged),
reports no error and scans no target. -/
theorem isLevelEnabled_after_shutdown (s : LogrState)
    (h : s.shutdownFlag = false) (ops : List Op) (lvl : Nat) :
    isLevelEnabledOp (applyOps (shutdownOp s).state ops) lvl
      = ⟨levelStatusDisabled, applyOps (shutdownOp s).state ops, [], 0⟩ := by
  have hq := shutQuiescent_applyOps _ ops (shutdownOp_quiescent s h)
  exact isLevelEnabledOp_quiescent _ lvl hq.1 hq.2

/-- Witness for C3: shut a fresh engine down, run two more operations, and
query level 2. -/
theorem isLevelEnabled_after_shutdown_witness :
    (LogrState.fresh 0).shutdownFlag = false
    ∧ isLevelEnabledOp
        (applyOps (shutdownOp (LogrState.fresh 0)).state
          [Op.isLevelEnabled 1, Op.resetLevelCache]) 2
      = ⟨levelStatusDisabled,
         applyOps (shutdownOp (LogrState.fresh 0)).state
           [Op.isLevelEnabled 1, Op.resetLevelCache], [], 0⟩ :=
  ⟨rfl, isLevelEnabled_after_shutdown (LogrState.fresh 0) rfl
    [Op.isLevelEnabled 1, Op.resetLevelCache] 2⟩
